import Mathlib

/-!
Shallow embedding of the Gamma_Integration service (src/gamma_service.py,
src/api.py, src/gamma.py) and proofs about its asynchronous generation-job
lifecycle, status polling, filename validation and endpoint fallback.

External effects (HTTP responses, raised exceptions, the wall clock) are
supplied as explicit oracle arguments; the embedded functions mirror the
Python control flow over those oracles.
-/

/-- Job status values used by the API: "processing", "completed", "failed". -/
inductive Status where
  | processing
  | completed
  | failed
  deriving DecidableEq, Repr

/-- A status is terminal when it is completed or failed. -/
def Status.isTerminal : Status → Bool
  | .processing => false
  | .completed => true
  | .failed => true

/-- Response to the submit POST in gamma_service.create_presentation_from_text:
HTTP status code, raw response text, and the optional "generationId" field of
the JSON body (absent key modelled as none; Python also treats the empty
string as falsy, which the embedding checks explicitly). -/
structure SubmitResponse where
  status_code : Nat
  text : String
  generationId : Option String
  deriving DecidableEq, Repr

/-- Response to one poll GET: the optional "status" and "exportUrl" fields of
the JSON body. -/
structure PollResponse where
  status : Option String
  exportUrl : Option String
  deriving DecidableEq, Repr

/-- True when the polled status is one of the two terminal strings the loop
reacts to. -/
def PollResponse.isTerminalStatus (p : PollResponse) : Bool :=
  p.status == some "completed" || p.status == some "failed"

/-- Result dictionary of create_presentation_from_text: either a dict carrying
an "error" key, or the success dict with "file" and "url" keys (api.py
discriminates on the presence of "error", so this is a tagged union). -/
inductive GenResult where
  | error (msg : String)
  | success (file : String) (url : Option String)
  deriving DecidableEq, Repr

/-- The "error" value of a result dict, when present. -/
def GenResult.errMsg : GenResult → Option String
  | .error m => some m
  | .success _ _ => none

/-- Outcome of one orchestrator run: the returned result dict, how many times
the status-poll GET was issued, and which files were written to local
storage. -/
structure OrchOutcome where
  result : GenResult
  pollCalls : Nat
  filesWritten : List String
  deriving DecidableEq, Repr

/-- The poll loop of gamma_service.create_presentation_from_text
(`for _ in range(15)`): `fuel` attempts remain, `polled` poll GETs were
already issued. `poll i` is the provider response to the i-th poll (0-based).
On "completed" the artifact is fetched and written as
`generation_id.export_as`; on "failed" the loop returns the provider-failure
error; any other status continues; exhaustion returns the timeout error. -/
def pollLoop (generation_id export_as : String) (poll : Nat → PollResponse) :
    Nat → Nat → OrchOutcome
  | 0, polled =>
    { result := .error "Gamma generation timed out.", pollCalls := polled, filesWritten := [] }
  | fuel + 1, polled =>
    let res := poll polled
    if res.status = some "completed" then
      let file_name := generation_id ++ "." ++ export_as
      { result := .success file_name res.exportUrl,
        pollCalls := polled + 1, filesWritten := [file_name] }
    else if res.status = some "failed" then
      { result := .error "Gamma generation failed.", pollCalls := polled + 1, filesWritten := [] }
    else
      pollLoop generation_id export_as poll fuel (polled + 1)

/-- gamma_service.create_presentation_from_text: submit, then poll up to 15
times. Submit failure (HTTP status >= 400) or a missing/empty generationId
returns an error dict at once, without polling or writing files. -/
def create_presentation_from_text (resp : SubmitResponse) (poll : Nat → PollResponse)
    (export_as : String) : OrchOutcome :=
  if 400 ≤ resp.status_code then
    { result := .error ("Failed to start generation: " ++ resp.text),
      pollCalls := 0, filesWritten := [] }
  else
    match resp.generationId with
    | none =>
      { result := .error "Missing generationId in response.", pollCalls := 0, filesWritten := [] }
    | some gid =>
      if gid = "" then
        { result := .error "Missing generationId in response.", pollCalls := 0, filesWritten := [] }
      else
        pollLoop gid export_as poll 15 0

/-- The "data" payload of a successful synchronous response (api.py lines
138-148). -/
structure SyncData where
  generation_id : String
  file_name : String
  download_url : String
  gamma_url : Option String
  status : Status
  created_at : Nat
  deriving DecidableEq, Repr

/-- PresentationResponse model of api.py. -/
structure PresentationResponse where
  success : Bool
  data : Option SyncData
  error : Option String
  deriving DecidableEq, Repr

/-- api.generate_presentation (the synchronous endpoint), applied to the
result dict returned by create_presentation_from_text; `now` is the wall
clock read for created_at. -/
def generate_presentation (result : GenResult) (now : Nat) : PresentationResponse :=
  match result with
  | .error msg => { success := false, data := none, error := some msg }
  | .success file url =>
    { success := true,
      data := some
        { generation_id := (file.splitOn ".").headD "",
          file_name := file,
          download_url := "/api/downloads/" ++ file,
          gamma_url := url,
          status := .completed,
          created_at := now },
      error := none }

/-- One entry of jobs_storage (api.py): the dict stored under a job id.
file_name and gamma_url are the extra keys added on completion. -/
structure JobRecord where
  status : Status
  progress : Nat
  download_url : Option String
  error : Option String
  created_at : Nat
  updated_at : Nat
  file_name : Option String
  gamma_url : Option String
  deriving DecidableEq, Repr

/-- The record stored by generate_presentation_async before scheduling the
background task (api.py lines 229-236): processing, progress 0, no urls. -/
def initialJob (t : Nat) : JobRecord :=
  { status := .processing, progress := 0, download_url := none, error := none,
    created_at := t, updated_at := t, file_name := none, gamma_url := none }

/-- JobResponse model of api.py (async start endpoint). -/
structure JobResponse where
  success : Bool
  job_id : String
  status : Status
  status_url : Option String
  deriving DecidableEq, Repr

/-- api.generate_presentation_async: mint a job id (supplied by the uuid
oracle), register the initial record at clock time t, and answer at once. -/
def generate_presentation_async (job_id : String) (t : Nat) : JobRecord × JobResponse :=
  (initialJob t,
   { success := true, job_id := job_id, status := .processing,
     status_url := some ("/api/presentation-status/" ++ job_id) })

/-- How the call to create_presentation_from_text inside the background task
ends: Except.ok r is a returned result dict r; Except.error e is a raised
Python exception whose str() is e. -/
abbrev BgOutcome := Except String GenResult

/-- api.generate_in_background, as the sequence of registry states it writes
for its job id: first the progress-10 update (clock t1), then the single
terminal update (clock t2) chosen by the outcome of the orchestrator call —
"error" key present means failed, success updates to completed/100 with the
download url, and a raised exception is caught and recorded as failed. The
function is total: every outcome, exceptions included, yields a final
record. -/
def generate_in_background (init : JobRecord) (outcome : BgOutcome)
    (t1 t2 : Nat) : List JobRecord :=
  let s1 := { init with progress := 10, updated_at := t1 }
  match outcome with
  | .ok (.error msg) =>
    [s1, { s1 with status := .failed, error := some msg, updated_at := t2 }]
  | .ok (.success file url) =>
    [s1,
     { s1 with
        status := .completed
        progress := 100
        download_url := some ("/api/downloads/" ++ file)
        file_name := some file
        gamma_url := url
        updated_at := t2 }]
  | .error e =>
    [s1, { s1 with status := .failed, error := some e, updated_at := t2 }]

/-- All registry states one async job passes through, in order: the record
created by the async endpoint at t0 followed by the background task's
updates. -/
def jobStates (t0 : Nat) (outcome : BgOutcome) (t1 t2 : Nat) : List JobRecord :=
  initialJob t0 :: generate_in_background (initialJob t0) outcome t1 t2

/-- The job's record after the background task has finished. -/
def finalJob (t0 : Nat) (outcome : BgOutcome) (t1 t2 : Nat) : JobRecord :=
  (jobStates t0 outcome t1 t2).getLastD (initialJob t0)

/-- JobStatusResponse model of api.py. -/
structure JobStatusResponse where
  job_id : String
  status : Status
  progress : Nat
  download_url : Option String
  error : Option String
  created_at : Nat
  updated_at : Nat
  deriving DecidableEq, Repr

/-- The body check_job_status builds from a stored record (api.py lines
329-337). -/
def statusResponseOf (job_id : String) (jd : JobRecord) : JobStatusResponse :=
  { job_id := job_id, status := jd.status, progress := jd.progress,
    download_url := jd.download_url, error := jd.error,
    created_at := jd.created_at, updated_at := jd.updated_at }

/-- Result of the status-check endpoint: 404 "Job not found", or a 200 body. -/
inductive StatusCheckResult where
  | notFound
  | ok (r : JobStatusResponse)
  deriving DecidableEq, Repr

/-- jobs_storage: the in-memory dict, as an association list. -/
abbrev JobsStorage := List (String × JobRecord)

/-- api.check_job_status: 404 when the id is absent from jobs_storage,
otherwise the stored record's fields. -/
def check_job_status (storage : JobsStorage) (job_id : String) : StatusCheckResult :=
  match storage.lookup job_id with
  | none => .notFound
  | some jd => .ok (statusResponseOf job_id jd)

/-- HTTP status code of a status-check outcome. -/
def statusCheckHttpCode : StatusCheckResult → Nat
  | .notFound => 404
  | .ok _ => 200

/-- The status/progress/download_url/error projection of a status response —
everything except the timestamps. -/
def observe (r : JobStatusResponse) : Status × Nat × Option String × Option String :=
  (r.status, r.progress, r.download_url, r.error)

/-- A partial update passed to dict.update on a stored job record: the keys
present in the mutation dict overwrite the record's entries. -/
structure JobMutation where
  status : Option Status
  progress : Option Nat
  download_url : Option (Option String)
  error : Option (Option String)
  updated_at : Option Nat
  file_name : Option (Option String)
  gamma_url : Option (Option String)
  deriving DecidableEq, Repr

/-- Python dict.update semantics on a job record: every key present in the
mutation replaces the stored value; nothing is rejected or ignored. -/
def applyMutation (jd : JobRecord) (m : JobMutation) : JobRecord :=
  { status := m.status.getD jd.status,
    progress := m.progress.getD jd.progress,
    download_url := m.download_url.getD jd.download_url,
    error := m.error.getD jd.error,
    created_at := jd.created_at,
    updated_at := m.updated_at.getD jd.updated_at,
    file_name := m.file_name.getD jd.file_name,
    gamma_url := m.gamma_url.getD jd.gamma_url }

-- Sanity checks of the orchestrator embedding on concrete oracles.
example :
    create_presentation_from_text ⟨500, "boom", none⟩ (fun _ => ⟨some "pending", none⟩) "pdf" =
      ⟨.error "Failed to start generation: boom", 0, []⟩ := by rfl

example :
    create_presentation_from_text ⟨200, "", some "abc123"⟩
      (fun i => if i < 2 then ⟨some "pending", none⟩
                else ⟨some "completed", some "https://provider/export/abc123.pdf"⟩) "pdf" =
      ⟨.success "abc123.pdf" (some "https://provider/export/abc123.pdf"), 3, ["abc123.pdf"]⟩ := by
  rfl

example :
    create_presentation_from_text ⟨200, "", some "abc123"⟩
      (fun _ => ⟨some "pending", none⟩) "pdf" =
      ⟨.error "Gamma generation timed out.", 15, []⟩ := by rfl

/-- A character allowed in the stem of a downloadable file name:
[a-zA-Z0-9_-] of the regex in api.download_file. -/
def isWordChar (c : Char) : Bool :=
  c.isAlpha || c.isDigit || c == '_' || c == '-'

/-- The exact file-name shape the claim's pattern
<alphanumeric/underscore/hyphen>.(pdf|pptx) denotes: a nonempty
[a-zA-Z0-9_-]+ stem, a literal dot, then pdf or pptx, and nothing else.
Checked on the reversed character list. Stated from the spec's words, for
comparison with the code's re.match guard. -/
def specNamePatternList (cs : List Char) : Bool :=
  let r := cs.reverse
  if r.take 4 = ['f', 'd', 'p', '.'] then
    let stem := r.drop 4
    !stem.isEmpty && stem.all isWordChar
  else if r.take 5 = ['x', 't', 'p', 'p', '.'] then
    let stem := r.drop 5
    !stem.isEmpty && stem.all isWordChar
  else false

/-- The spec's pattern on a string. -/
def specNamePattern (s : String) : Bool :=
  specNamePatternList s.data

/-- One trailing newline stripped, if present: in Python re without
MULTILINE, the anchor $ matches at the end of the string or just before a
newline at the end of the string. -/
def stripTrailingNewline (cs : List Char) : List Char :=
  match cs.reverse with
  | '\n' :: rest => rest.reverse
  | _ => cs

/-- Character-list matcher for re.match of the regex in api.download_file:
the pattern body must cover the string from its start, and $ accepts the
end or the position before one trailing newline. No pattern character
matches a newline, so acceptance is exactly the spec pattern on the string
with one trailing newline stripped. -/
def matchesNamePatternList (cs : List Char) : Bool :=
  specNamePatternList (stripTrailingNewline cs)

/-- re.match of the file-name pattern in api.download_file, on the whole
string. -/
def matchesFileNamePattern (s : String) : Bool :=
  matchesNamePatternList s.data

/-- Result of the download endpoint: 400 invalid name, 404 missing file, or
a FileResponse with a media type and attachment file name. -/
inductive DownloadResult where
  | badRequest
  | notFound
  | file (path : String) (media_type : String) (filename : String)
  deriving DecidableEq, Repr

/-- file_name.endswith('.pdf') of api.download_file, on the character
list. -/
def endsWithPdf (s : String) : Bool :=
  s.data.reverse.take 4 = ['f', 'd', 'p', '.']

/-- api.download_file over a filesystem oracle fs_exists; the second
component counts filesystem accesses (os.path.exists plus the eventual file
read are each at least one access; an invalid name performs none). -/
def download_file (fs_exists : String → Bool) (file_name : String) :
    DownloadResult × Nat :=
  if matchesFileNamePattern file_name = false then
    (.badRequest, 0)
  else if fs_exists file_name = false then
    (.notFound, 1)
  else if endsWithPdf file_name then
    (.file file_name "application/pdf" file_name, 2)
  else
    (.file file_name
      "application/vnd.openxmlformats-officedocument.presentationml.presentation" file_name, 2)

/-- Outcome of one POST attempt in gamma.create_presentation: an HTTP
response (status code, text, parsed JSON body) or a raised exception. -/
inductive AttemptOutcome where
  | response (status_code : Nat) (text : String) (body : String)
  | exception (msg : String)
  deriving DecidableEq, Repr

/-- Whether the loop in gamma.create_presentation treats the attempt as
failed (error status code, or exception). -/
def attemptFails : AttemptOutcome → Bool
  | .response code _ _ => 400 ≤ code
  | .exception _ => true

/-- The last_error string the loop records for a failed attempt. -/
def attemptError : AttemptOutcome → String
  | .response code text _ => toString code ++ " - " ++ text
  | .exception msg => msg

/-- The ordered candidate paths of gamma.py. -/
def GAMMA_ENDPOINTS : List String := ["/content", "/documents", "/create"]

/-- The hint of gamma.create_presentation's failure dict. -/
def GAMMA_HINT : String :=
  "Try verifying which endpoint your Gamma key supports. Most users should use POST https://gamma.app/api/content."

/-- Return value of gamma.create_presentation: the first non-error response
body, or the structured failure dict (error, last_attempt, hint). -/
inductive CreateResult where
  | body (b : String)
  | allFailed (error : String) (last_attempt : Option String) (hint : String)
  deriving DecidableEq, Repr

/-- The endpoint loop of gamma.create_presentation: respond gives each
candidate path's outcome; the loop returns the first response body whose
status code is below 400, records last_error otherwise, and after the list
is exhausted returns the failure dict. -/
def createPresentationLoop (respond : String → AttemptOutcome) :
    List String → Option String → CreateResult
  | [], last_error => .allFailed "All endpoints failed" last_error GAMMA_HINT
  | endpoint :: rest, _last_error =>
    match respond endpoint with
    | .response code text body =>
      if code < 400 then .body body
      else createPresentationLoop respond rest (some (toString code ++ " - " ++ text))
    | .exception msg => createPresentationLoop respond rest (some msg)

/-- gamma.create_presentation over the attempt oracle. -/
def create_presentation (respond : String → AttemptOutcome) : CreateResult :=
  createPresentationLoop respond GAMMA_ENDPOINTS none

-- Sanity checks of the filename matcher and the endpoint fallback.
example : matchesFileNamePattern "report.pdf" = true := by decide
example : matchesFileNamePattern "../../etc/passwd.pdf" = false := by decide
example : matchesFileNamePattern "report.docx" = false := by decide
example : matchesFileNamePattern "report" = false := by decide
example : matchesFileNamePattern "slide-1_final.pptx" = true := by decide
example : matchesFileNamePattern ".pdf" = false := by decide
example : matchesFileNamePattern "report.pdf\n" = true := by decide
example : matchesFileNamePattern "report.pdf\n\n" = false := by decide
example : specNamePattern "report.pdf\n" = false := by decide
example :
    create_presentation (fun e => if e = "/create" then .response 200 "" "BODY"
                                  else .response 404 "nope" "") =
      .body "BODY" := by decide
example :
    create_presentation (fun _ => .exception "connexion refused") =
      .allFailed "All endpoints failed" (some "connexion refused") GAMMA_HINT := by decide

/-- A poll response that is neither "completed" nor "failed" satisfies
neither branch test of the loop. -/
theorem not_terminal_branches (p : PollResponse) (h : p.isTerminalStatus = false) :
    ¬ (p.status = some "completed") ∧ ¬ (p.status = some "failed") := by
  rw [PollResponse.isTerminalStatus] at h
  constructor
  · intro hc
    rw [hc] at h
    simp at h
  · intro hf
    rw [hf] at h
    simp at h

/-- If every attempt in the window is non-terminal, the poll loop consumes
all its fuel and returns the timeout error, having issued one poll GET per
unit of fuel. -/
theorem pollLoop_timeout (gid ea : String) (poll : Nat → PollResponse) :
    ∀ fuel polled,
      (∀ i, polled ≤ i → i < polled + fuel → (poll i).isTerminalStatus = false) →
      pollLoop gid ea poll fuel polled =
        { result := .error "Gamma generation timed out.",
          pollCalls := polled + fuel, filesWritten := [] } := by
  intro fuel
  induction fuel with
  | zero =>
    intro polled _
    simp [pollLoop]
  | succ n ih =>
    intro polled h
    have h0 := not_terminal_branches (poll polled) (h polled le_rfl (by omega))
    rw [pollLoop]
    simp only [h0.1, h0.2, if_false, if_neg, ite_false]
    rw [ih (polled + 1) (fun i h1 h2 => h i (by omega) (by omega))]
    have harith : polled + 1 + n = polled + (n + 1) := by omega
    rw [harith]

/-- Claim C3: if pollStatus reports a non-terminal status on all 15 poll
attempts (after a successful submission), the orchestrator polls exactly 15
times and returns the timeout failure — a message distinct from the
provider-reported failure message — and never a completed (success) or
provider-failed result; no file is written. -/
theorem poll_exhaustion_times_out (resp : SubmitResponse) (poll : Nat → PollResponse)
    (export_as : String) (gid : String)
    (hcode : resp.status_code < 400) (hgid : resp.generationId = some gid) (hne : gid ≠ "")
    (hpoll : ∀ i, i < 15 → (poll i).isTerminalStatus = false) :
    create_presentation_from_text resp poll export_as =
      { result := .error "Gamma generation timed out.", pollCalls := 15, filesWritten := [] } ∧
    (GenResult.error "Gamma generation timed out." ≠ GenResult.error "Gamma generation failed.") ∧
    (∀ f u, (create_presentation_from_text resp poll export_as).result ≠ .success f u) := by
  have hmain : create_presentation_from_text resp poll export_as =
      { result := .error "Gamma generation timed out.", pollCalls := 15, filesWritten := [] } := by
    rw [create_presentation_from_text, if_neg (by omega), hgid]
    simp only [if_neg hne]
    have := pollLoop_timeout gid export_as poll 15 0 (fun i h1 h2 => hpoll i (by omega))
    simpa using this
  refine ⟨hmain, by decide, ?_⟩
  intro f u
  rw [hmain]
  simp

/-- Witness for C3 at a concrete submission and an always-pending provider. -/
theorem poll_exhaustion_times_out_witness :
    create_presentation_from_text ⟨200, "", some "abc123"⟩
        (fun _ => ⟨some "pending", none⟩) "pdf" =
      { result := .error "Gamma generation timed out.", pollCalls := 15, filesWritten := [] } :=
  (poll_exhaustion_times_out ⟨200, "", some "abc123"⟩ (fun _ => ⟨some "pending", none⟩)
    "pdf" "abc123" (by decide) rfl (by decide) (fun i _ => rfl)).1

/-- A string with a nonempty prefix is nonempty. -/
theorem append_ne_empty_of_left_ne_empty (p t : String) (hp : p.length ≠ 0) :
    p ++ t ≠ "" := by
  intro h
  have h1 := congrArg String.length h
  rw [String.length_append] at h1
  have h2 : String.length "" = 0 := rfl
  omega

/-- Claim C4: when submission fails (error HTTP status, or a missing/empty
generation identifier), the orchestrator returns a failure at once: zero
pollStatus calls, no file written, a nonempty error message, and the
synchronous endpoint built on that result answers success = false carrying
that error. -/
theorem submit_failure_immediate (resp : SubmitResponse) (poll : Nat → PollResponse)
    (export_as : String) (now : Nat)
    (h : 400 ≤ resp.status_code ∨ resp.generationId = none ∨ resp.generationId = some "") :
    (create_presentation_from_text resp poll export_as).pollCalls = 0 ∧
    (create_presentation_from_text resp poll export_as).filesWritten = [] ∧
    (create_presentation_from_text resp poll export_as).result.errMsg ≠ none ∧
    (∀ m, (create_presentation_from_text resp poll export_as).result.errMsg = some m →
      m ≠ "") ∧
    generate_presentation (create_presentation_from_text resp poll export_as).result now =
      { success := false, data := none,
        error := (create_presentation_from_text resp poll export_as).result.errMsg } := by
  by_cases hcode : 400 ≤ resp.status_code
  · have hmain : create_presentation_from_text resp poll export_as =
        { result := .error ("Failed to start generation: " ++ resp.text),
          pollCalls := 0, filesWritten := [] } := by
      rw [create_presentation_from_text, if_pos hcode]
    rw [hmain]
    refine ⟨rfl, rfl, by simp [GenResult.errMsg], ?_, by simp [generate_presentation, GenResult.errMsg]⟩
    intro m hm
    simp [GenResult.errMsg] at hm
    rw [← hm]
    exact append_ne_empty_of_left_ne_empty _ _ (by decide)
  · have hmain : create_presentation_from_text resp poll export_as =
        { result := .error "Missing generationId in response.",
          pollCalls := 0, filesWritten := [] } := by
      rcases h with h1 | hnone | hempty
      · exact absurd h1 hcode
      · rw [create_presentation_from_text, if_neg hcode, hnone]
      · rw [create_presentation_from_text, if_neg hcode, hempty]
        simp
    rw [hmain]
    refine ⟨rfl, rfl, by simp [GenResult.errMsg], ?_, by simp [generate_presentation, GenResult.errMsg]⟩
    intro m hm
    simp [GenResult.errMsg] at hm
    rw [← hm]
    decide

/-- Witness for C4 at a concrete HTTP 500 submit response. -/
theorem submit_failure_immediate_witness :
    (create_presentation_from_text ⟨500, "Internal Server Error", none⟩
      (fun _ => ⟨some "pending", none⟩) "pdf").pollCalls = 0 ∧
    (create_presentation_from_text ⟨500, "Internal Server Error", none⟩
      (fun _ => ⟨some "pending", none⟩) "pdf").filesWritten = [] ∧
    (create_presentation_from_text ⟨500, "Internal Server Error", none⟩
      (fun _ => ⟨some "pending", none⟩) "pdf").result.errMsg ≠ none ∧
    (∀ m, (create_presentation_from_text ⟨500, "Internal Server Error", none⟩
      (fun _ => ⟨some "pending", none⟩) "pdf").result.errMsg = some m → m ≠ "") ∧
    generate_presentation
        (create_presentation_from_text ⟨500, "Internal Server Error", none⟩
          (fun _ => ⟨some "pending", none⟩) "pdf").result 7 =
      { success := false, data := none,
        error := (create_presentation_from_text ⟨500, "Internal Server Error", none⟩
          (fun _ => ⟨some "pending", none⟩) "pdf").result.errMsg } :=
  submit_failure_immediate ⟨500, "Internal Server Error", none⟩
    (fun _ => ⟨some "pending", none⟩) "pdf" 7 (Or.inl (by decide))

/-- A job passes through exactly three registry states: creation, the
progress-10 update, and the terminal update. -/
theorem jobStates_length (t0 : Nat) (outcome : BgOutcome) (t1 t2 : Nat) :
    (jobStates t0 outcome t1 t2).length = 3 := by
  rcases outcome with e | (m | ⟨f, u⟩) <;> rfl

/-- The first two registry states of a job are still processing. -/
theorem jobStates_early_processing (t0 : Nat) (outcome : BgOutcome) (t1 t2 : Nat)
    (d : JobRecord) :
    ((jobStates t0 outcome t1 t2).getD 0 d).status = .processing ∧
    ((jobStates t0 outcome t1 t2).getD 1 d).status = .processing := by
  rcases outcome with e | (m | ⟨f, u⟩) <;> exact ⟨rfl, rfl⟩

/-- A terminal registry state of a job is its last state, so every later
state is the same record. -/
theorem jobStates_terminal_eq (t0 : Nat) (outcome : BgOutcome) (t1 t2 : Nat)
    (i j : Nat) (d : JobRecord) (hij : i ≤ j)
    (hj : j < (jobStates t0 outcome t1 t2).length)
    (hterm : ((jobStates t0 outcome t1 t2).getD i d).status.isTerminal = true) :
    (jobStates t0 outcome t1 t2).getD j d = (jobStates t0 outcome t1 t2).getD i d := by
  rw [jobStates_length] at hj
  have hi3 : i < 3 := by omega
  interval_cases i
  · rw [(jobStates_early_processing t0 outcome t1 t2 d).1] at hterm
    simp [Status.isTerminal] at hterm
  · rw [(jobStates_early_processing t0 outcome t1 t2 d).2] at hterm
    simp [Status.isTerminal] at hterm
  · have hj2 : j = 2 := by omega
    rw [hj2]

/-- Claim C1: once a status-check observes a terminal status for a job, every
later status-check for the same identifier answers with the same status,
progress, download locator and error text (timestamps aside): both checks
succeed on the stored record and their non-timestamp projections agree. -/
theorem status_check_monotonic (t0 : Nat) (outcome : BgOutcome) (t1 t2 : Nat)
    (job_id : String) (i j : Nat) (d : JobRecord)
    (hij : i ≤ j) (hj : j < (jobStates t0 outcome t1 t2).length)
    (hterm : ((jobStates t0 outcome t1 t2).getD i d).status.isTerminal = true) :
    check_job_status [(job_id, (jobStates t0 outcome t1 t2).getD i d)] job_id =
      .ok (statusResponseOf job_id ((jobStates t0 outcome t1 t2).getD i d)) ∧
    check_job_status [(job_id, (jobStates t0 outcome t1 t2).getD j d)] job_id =
      .ok (statusResponseOf job_id ((jobStates t0 outcome t1 t2).getD j d)) ∧
    observe (statusResponseOf job_id ((jobStates t0 outcome t1 t2).getD j d)) =
      observe (statusResponseOf job_id ((jobStates t0 outcome t1 t2).getD i d)) := by
  have heq := jobStates_terminal_eq t0 outcome t1 t2 i j d hij hj hterm
  refine ⟨?_, ?_, ?_⟩
  · simp [check_job_status, List.lookup]
  · simp [check_job_status, List.lookup]
  · rw [heq]

/-- Witness for C1: a failed job observed terminal at state 2 and re-checked
at state 2. -/
theorem status_check_monotonic_witness :
    check_job_status
        [("job-1", (jobStates 0 (.ok (.error "E")) 1 2).getD 2 (initialJob 0))] "job-1" =
      .ok (statusResponseOf "job-1" ((jobStates 0 (.ok (.error "E")) 1 2).getD 2 (initialJob 0))) ∧
    check_job_status
        [("job-1", (jobStates 0 (.ok (.error "E")) 1 2).getD 2 (initialJob 0))] "job-1" =
      .ok (statusResponseOf "job-1" ((jobStates 0 (.ok (.error "E")) 1 2).getD 2 (initialJob 0))) ∧
    observe (statusResponseOf "job-1" ((jobStates 0 (.ok (.error "E")) 1 2).getD 2 (initialJob 0))) =
      observe (statusResponseOf "job-1" ((jobStates 0 (.ok (.error "E")) 1 2).getD 2 (initialJob 0))) :=
  status_check_monotonic 0 (.ok (.error "E")) 1 2 "job-1" 2 2 (initialJob 0)
    (by decide) (by decide) (by decide)

/-- A completed job record, as the background task writes it. -/
def completedJobExample : JobRecord :=
  { status := .completed, progress := 100,
    download_url := some "/api/downloads/abc123.pdf", error := none,
    created_at := 0, updated_at := 2, file_name := some "abc123.pdf",
    gamma_url := some "https://provider/export/abc123.pdf" }

/-- A stray update that tries to move a job back to processing, as a
duplicate or late callback could issue. -/
def strayStatusMutation : JobMutation :=
  { status := some .processing, progress := none, download_url := none,
    error := none, updated_at := some 3, file_name := none, gamma_url := none }

/-- Claim C2 counterexample: jobs_storage is a plain dict and its update
operation applies a status-changing mutation even to a terminal record —
nothing rejects or ignores it, so the registry operation does move a job out
of a terminal state. -/
theorem registry_update_not_guarded :
    completedJobExample.status.isTerminal = true ∧
    (applyMutation completedJobExample strayStatusMutation).status = .processing ∧
    (applyMutation completedJobExample strayStatusMutation).status ≠ completedJobExample.status := by
  decide

/-- Claim C2 (amended): along the registry states a job actually passes
through, the status never changes after a terminal state, because the
background task is the only writer and performs no further update after its
terminal one (the registry itself enforces nothing). -/
theorem terminal_status_never_changes (t0 : Nat) (outcome : BgOutcome) (t1 t2 : Nat)
    (i j : Nat) (d : JobRecord) (hij : i ≤ j)
    (hj : j < (jobStates t0 outcome t1 t2).length)
    (hterm : ((jobStates t0 outcome t1 t2).getD i d).status.isTerminal = true) :
    ((jobStates t0 outcome t1 t2).getD j d).status =
      ((jobStates t0 outcome t1 t2).getD i d).status := by
  rw [jobStates_terminal_eq t0 outcome t1 t2 i j d hij hj hterm]

/-- Witness for the amended C2 at a concrete completed job. -/
theorem terminal_status_never_changes_witness :
    ((jobStates 0 (.ok (.success "abc123.pdf" (some "u"))) 1 2).getD 2 (initialJob 0)).status =
      ((jobStates 0 (.ok (.success "abc123.pdf" (some "u"))) 1 2).getD 2 (initialJob 0)).status :=
  terminal_status_never_changes 0 (.ok (.success "abc123.pdf" (some "u"))) 1 2 2 2
    (initialJob 0) (by decide) (by decide) (by decide)

/-- Claim C5: the background task is total over every orchestration outcome —
a raised exception included — and a raised exception with message e always
yields a final record that is terminal, failed, and carries e as its error
text; nothing propagates out of the task. -/
theorem background_fault_contained (t0 t1 t2 : Nat) (outcome : BgOutcome) :
    (finalJob t0 outcome t1 t2).status.isTerminal = true ∧
    (∀ e, outcome = .error e →
      (finalJob t0 outcome t1 t2).status = .failed ∧
      (finalJob t0 outcome t1 t2).error = some e) := by
  rcases outcome with e | (m | ⟨f, u⟩)
  · refine ⟨rfl, ?_⟩
    intro e' he
    cases he
    exact ⟨rfl, rfl⟩
  · refine ⟨rfl, ?_⟩
    intro e' he
    cases he
  · refine ⟨rfl, ?_⟩
    intro e' he
    cases he

/-- Witness for C5 at a concrete raised exception. -/
theorem background_fault_contained_witness :
    (finalJob 0 (.error "requests.exceptions.ConnectionError") 1 2).status = .failed ∧
    (finalJob 0 (.error "requests.exceptions.ConnectionError") 1 2).error =
      some "requests.exceptions.ConnectionError" :=
  (background_fault_contained 0 1 2 (.error "requests.exceptions.ConnectionError")).2
    "requests.exceptions.ConnectionError" rfl

/-- Claim C6: at every registry state of a job, the download locator is
present only when the status is completed, the error text only when the
status is failed, and a processing state carries neither. -/
theorem job_fields_match_status (t0 : Nat) (outcome : BgOutcome) (t1 t2 : Nat) :
    ∀ s ∈ jobStates t0 outcome t1 t2,
      (s.download_url ≠ none → s.status = .completed) ∧
      (s.error ≠ none → s.status = .failed) ∧
      (s.status = .processing → s.download_url = none ∧ s.error = none) := by
  intro s hs
  rcases outcome with e | (m | ⟨f, u⟩) <;>
    simp only [jobStates, generate_in_background, initialJob, List.mem_cons,
      List.mem_singleton, List.not_mem_nil, or_false] at hs <;>
    rcases hs with rfl | rfl | rfl <;>
    simp

/-- Witness for C6 at the terminal state of a concrete completed job. -/
theorem job_fields_match_status_witness :
    (((jobStates 0 (.ok (.success "abc123.pdf" (some "u"))) 1 2).getD 2 (initialJob 0)).download_url ≠ none →
      ((jobStates 0 (.ok (.success "abc123.pdf" (some "u"))) 1 2).getD 2 (initialJob 0)).status = .completed) ∧
    (((jobStates 0 (.ok (.success "abc123.pdf" (some "u"))) 1 2).getD 2 (initialJob 0)).error ≠ none →
      ((jobStates 0 (.ok (.success "abc123.pdf" (some "u"))) 1 2).getD 2 (initialJob 0)).status = .failed) ∧
    (((jobStates 0 (.ok (.success "abc123.pdf" (some "u"))) 1 2).getD 2 (initialJob 0)).status = .processing →
      ((jobStates 0 (.ok (.success "abc123.pdf" (some "u"))) 1 2).getD 2 (initialJob 0)).download_url = none ∧
      ((jobStates 0 (.ok (.success "abc123.pdf" (some "u"))) 1 2).getD 2 (initialJob 0)).error = none) :=
  job_fields_match_status 0 (.ok (.success "abc123.pdf" (some "u"))) 1 2
    ((jobStates 0 (.ok (.success "abc123.pdf" (some "u"))) 1 2).getD 2 (initialJob 0))
    (by decide)

/-- Claim C10: every registry state of a job has progress 0, 10 or 100;
progress is 100 exactly when the status is completed; and a job that ends
failed — by failure payload or by exception — keeps the in-flight progress
value 10. -/
theorem progress_values (t0 : Nat) (outcome : BgOutcome) (t1 t2 : Nat) :
    (∀ s ∈ jobStates t0 outcome t1 t2,
      (s.progress = 0 ∨ s.progress = 10 ∨ s.progress = 100) ∧
      (s.progress = 100 ↔ s.status = .completed)) ∧
    (∀ m, outcome = .ok (.error m) →
      (finalJob t0 outcome t1 t2).status = .failed ∧
      (finalJob t0 outcome t1 t2).progress = 10) ∧
    (∀ e, outcome = .error e →
      (finalJob t0 outcome t1 t2).status = .failed ∧
      (finalJob t0 outcome t1 t2).progress = 10) := by
  refine ⟨?_, ?_, ?_⟩
  · intro s hs
    rcases outcome with e | (m | ⟨f, u⟩) <;>
      simp only [jobStates, generate_in_background, initialJob, List.mem_cons,
        List.mem_singleton, List.not_mem_nil, or_false] at hs <;>
      rcases hs with rfl | rfl | rfl <;>
      simp
  · intro m hm
    cases hm
    exact ⟨rfl, rfl⟩
  · intro e he
    cases he
    exact ⟨rfl, rfl⟩

/-- Witness for C10 at the in-flight state of a concrete failed job. -/
theorem progress_values_witness :
    (finalJob 0 (.ok (.error "Gamma generation failed.")) 1 2).status = .failed ∧
    (finalJob 0 (.ok (.error "Gamma generation failed.")) 1 2).progress = 10 :=
  (progress_values 0 (.ok (.error "Gamma generation failed.")) 1 2).2.1
    "Gamma generation failed." rfl

/-- Claim C7 counterexample: Python re.match's $ also matches just before
one trailing newline, so the code's guard accepts "report.pdf\n" — a name
outside the claimed pattern <alphanumeric/underscore/hyphen>.(pdf|pptx) —
and the endpoint then performs a filesystem access for it instead of
rejecting it before touching storage. -/
theorem download_name_newline_accepted :
    specNamePattern "report.pdf\n" = false ∧
    matchesFileNamePattern "report.pdf\n" = true ∧
    download_file (fun _ => false) "report.pdf\n" = (.notFound, 1) ∧
    (download_file (fun _ => false) "report.pdf\n").2 ≠ 0 := by
  decide

/-- Claim C7 (amended): the guard of api.download_file is re.match of the
pattern, which accepts exactly the spec's pattern up to one optional
trailing newline; every name failing that guard is rejected with a client
error and zero filesystem accesses; report.pdf is accepted while
../../etc/passwd.pdf, report.docx and report are all rejected with zero
filesystem accesses, for every filesystem state. -/
theorem download_name_validation :
    (∀ fs name, matchesFileNamePattern name = false →
      download_file fs name = (.badRequest, 0)) ∧
    (∀ name, matchesFileNamePattern name =
      specNamePatternList (stripTrailingNewline name.data)) ∧
    matchesFileNamePattern "report.pdf" = true ∧
    specNamePattern "report.pdf" = true ∧
    (∀ fs, download_file fs "../../etc/passwd.pdf" = (.badRequest, 0)) ∧
    (∀ fs, download_file fs "report.docx" = (.badRequest, 0)) ∧
    (∀ fs, download_file fs "report" = (.badRequest, 0)) ∧
    (∀ fs, fs "report.pdf" = true →
      download_file fs "report.pdf" = (.file "report.pdf" "application/pdf" "report.pdf", 2)) := by
  have hgen : ∀ fs name, matchesFileNamePattern name = false →
      download_file fs name = (.badRequest, 0) := by
    intro fs name h
    rw [download_file, if_pos h]
  refine ⟨hgen, fun name => rfl, by decide, by decide, ?_, ?_, ?_, ?_⟩
  · intro fs
    exact hgen fs "../../etc/passwd.pdf" (by decide)
  · intro fs
    exact hgen fs "report.docx" (by decide)
  · intro fs
    exact hgen fs "report" (by decide)
  · intro fs hfs
    rw [download_file, if_neg (by decide), hfs]
    simp only [Bool.true_eq_false, if_false, ite_false, if_neg]
    rw [if_pos (by decide)]

/-- Witness for C7: a traversal name is rejected without touching a
filesystem on which it exists. -/
theorem download_name_validation_witness :
    download_file (fun _ => true) "../../etc/passwd.pdf" = (.badRequest, 0) :=
  download_name_validation.2.2.2.2.1 (fun _ => true)

/-- Claim C8: a status-check for a job identifier absent from jobs_storage
answers the distinct not-found outcome: HTTP 404, a client error (4xx, not a
5xx internal error), and never any job body — in particular never a default
processing record. -/
theorem unknown_job_not_found (storage : JobsStorage) (job_id : String)
    (h : storage.lookup job_id = none) :
    check_job_status storage job_id = .notFound ∧
    statusCheckHttpCode (check_job_status storage job_id) = 404 ∧
    400 ≤ statusCheckHttpCode (check_job_status storage job_id) ∧
    statusCheckHttpCode (check_job_status storage job_id) < 500 ∧
    (∀ r, check_job_status storage job_id ≠ .ok r) := by
  have h1 : check_job_status storage job_id = .notFound := by
    rw [check_job_status, h]
  refine ⟨h1, by rw [h1]; rfl, by rw [h1]; decide, by rw [h1]; decide, ?_⟩
  intro r
  rw [h1]
  simp

/-- Witness for C8 on an empty registry. -/
theorem unknown_job_not_found_witness :
    check_job_status [] "stale-id" = .notFound ∧
    statusCheckHttpCode (check_job_status [] "stale-id") = 404 ∧
    400 ≤ statusCheckHttpCode (check_job_status [] "stale-id") ∧
    statusCheckHttpCode (check_job_status [] "stale-id") < 500 ∧
    (∀ r, check_job_status [] "stale-id" ≠ .ok r) :=
  unknown_job_not_found [] "stale-id" rfl

/-- A failing attempt makes the endpoint loop move on to the remaining
candidates, recording that attempt's error as last_error. -/
theorem createPresentationLoop_step_fail (respond : String → AttemptOutcome)
    (e : String) (rest : List String) (le : Option String)
    (h : attemptFails (respond e) = true) :
    createPresentationLoop respond (e :: rest) le =
      createPresentationLoop respond rest (some (attemptError (respond e))) := by
  cases ha : respond e with
  | response c t b =>
    rw [ha] at h
    simp only [attemptFails, decide_eq_true_eq] at h
    have hc : ¬ (c < 400) := by omega
    simp only [createPresentationLoop]
    rw [ha]
    simp [hc, attemptError, ha]
  | exception m =>
    simp only [createPresentationLoop]
    rw [ha]
    simp [attemptError, ha]

/-- If every candidate before one succeeding endpoint fails, the loop
returns that endpoint's response body. -/
theorem createPresentationLoop_first_success (respond : String → AttemptOutcome)
    (code : Nat) (text body : String) :
    ∀ (pre : List String) (endpoint : String) (post : List String) (le : Option String),
      (∀ e ∈ pre, attemptFails (respond e) = true) →
      respond endpoint = .response code text body → code < 400 →
      createPresentationLoop respond (pre ++ endpoint :: post) le = .body body := by
  intro pre
  induction pre with
  | nil =>
    intro endpoint post le _ hresp hcode
    simp only [List.nil_append, createPresentationLoop]
    rw [hresp]
    simp [hcode]
  | cons a as ih =>
    intro endpoint post le h hresp hcode
    have hfa : attemptFails (respond a) = true := h a (by simp)
    rw [List.cons_append, createPresentationLoop_step_fail respond a _ le hfa]
    exact ih endpoint post _ (fun e he => h e (by simp [he])) hresp hcode

/-- If every candidate fails, the loop ends with the structured failure dict
recording the last candidate's error. -/
theorem createPresentation_all_fail (respond : String → AttemptOutcome)
    (h : ∀ e ∈ GAMMA_ENDPOINTS, attemptFails (respond e) = true) :
    create_presentation respond =
      .allFailed "All endpoints failed" (some (attemptError (respond "/create"))) GAMMA_HINT := by
  have h1 := h "/content" (by simp [GAMMA_ENDPOINTS])
  have h2 := h "/documents" (by simp [GAMMA_ENDPOINTS])
  have h3 := h "/create" (by simp [GAMMA_ENDPOINTS])
  rw [create_presentation,
    show GAMMA_ENDPOINTS = "/content" :: "/documents" :: "/create" :: [] from rfl,
    createPresentationLoop_step_fail respond _ _ _ h1,
    createPresentationLoop_step_fail respond _ _ _ h2,
    createPresentationLoop_step_fail respond _ _ _ h3]
  rfl

/-- Claim C9: the submit operation of the provider client tries the fixed
ordered candidate paths in order and returns the body of the first response
whose HTTP status is below 400; when every candidate fails it returns the
structured failure dict carrying the last observed error (that of the final
candidate) and a nonempty human-readable hint. -/
theorem endpoint_fallback (respond : String → AttemptOutcome) :
    (∀ (pre : List String) (endpoint : String) (post : List String)
        (code : Nat) (text body : String),
      GAMMA_ENDPOINTS = pre ++ endpoint :: post →
      (∀ e ∈ pre, attemptFails (respond e) = true) →
      respond endpoint = .response code text body → code < 400 →
      create_presentation respond = .body body) ∧
    ((∀ e ∈ GAMMA_ENDPOINTS, attemptFails (respond e) = true) →
      create_presentation respond =
        .allFailed "All endpoints failed" (some (attemptError (respond "/create"))) GAMMA_HINT ∧
      GAMMA_HINT ≠ "") := by
  constructor
  · intro pre endpoint post code text body hsplit hpre hresp hcode
    rw [create_presentation, hsplit]
    exact createPresentationLoop_first_success respond code text body pre endpoint post
      none hpre hresp hcode
  · intro h
    exact ⟨createPresentation_all_fail respond h, by decide⟩

/-- An attempt oracle whose first candidate raises and whose later
candidates answer 200. -/
def respondExample : String → AttemptOutcome := fun e =>
  if e = "/content" then .exception "connection reset" else .response 200 "" "BODY1"

/-- Witness for C9: with the first candidate failing and the second
succeeding, the client returns the second candidate's body. -/
theorem endpoint_fallback_witness :
    create_presentation respondExample = .body "BODY1" :=
  (endpoint_fallback respondExample).1 ["/content"] "/documents" ["/create"] 200 "" "BODY1"
    rfl (by decide) (by decide) (by decide)
